import Mathlib

/-!
A shallow embedding, in Lean 4, of the monitoring toolkit's status-normalization,
time-windowing, aggregation and reporting logic (src/infa/pc_mdm_monitor.py and
src/usage/pc_jobs.py), together with theorems settling the behavioural claims
about it.

Modelling conventions:
* Python strings are Lean `String`s; Python's substring operator `in` is `pyIn`,
  and `str.lower()` is `pyLower` (adequate for the ASCII patterns involved).
* Timestamps (`datetime`) are naive local instants modelled as `Int` seconds
  since the Unix epoch, at second granularity; `replace(hour=0, minute=0,
  second=0, microsecond=0)` becomes truncation to the containing day.
  Int `/` and `%` in Lean are euclidean (non-negative remainder for a positive
  modulus), which agrees with Python's floor division and modulo.
* SQL WHERE clauses of the fetch queries become Lean filters over candidate
  row lists; a NULL start time (`Option.none`) fails both `BETWEEN` and
  `>=`/`<` comparisons, exactly as in SQL three-valued logic.
* Network and subprocess effects are explicit inputs: each probe or delivery
  outcome (HTTP status, exception, timeout) is a value of an inductive type,
  and the Python `try/except` structure is mirrored by pattern matching, so
  the control flow on failures is preserved faithfully.
-/

namespace Monitoring

/-! ## Python string primitives -/

/-- Does `s` start with `p`? (helper for the substring test). -/
def beginsWith : List Char → List Char → Bool
  | [], _ => true
  | _ :: _, [] => false
  | p :: ps, c :: cs => p == c && beginsWith ps cs

/-- Does `p` occur as a contiguous substring of `s`?  Models Python's
`p in s` on strings. -/
def hasSub (p : List Char) : List Char → Bool
  | [] => beginsWith p []
  | c :: cs => beginsWith p (c :: cs) || hasSub p cs

/-- Python's `pat in s` for strings. -/
def pyIn (pat s : String) : Bool := hasSub pat.toList s.toList

/-- Python's `s.lower()` (ASCII-adequate). -/
def pyLower (s : String) : String := String.mk (s.toList.map Char.toLower)

theorem beginsWith_iff (p s : List Char) :
    beginsWith p s = true ↔ ∃ r, s = p ++ r := by
  induction p generalizing s with
  | nil => simp [beginsWith]
  | cons a ps ih =>
    cases s with
    | nil => simp [beginsWith]
    | cons c cs =>
      simp only [beginsWith, Bool.and_eq_true, beq_iff_eq, ih]
      constructor
      · rintro ⟨h1, r, h2⟩
        exact ⟨r, by simp [h1, h2]⟩
      · rintro ⟨r, h⟩
        simp only [List.cons_append, List.cons.injEq] at h
        exact ⟨h.1.symm, r, h.2⟩

theorem hasSub_iff (p s : List Char) :
    hasSub p s = true ↔ ∃ l r, s = l ++ p ++ r := by
  induction s with
  | nil =>
    simp only [hasSub, beginsWith_iff]
    constructor
    · rintro ⟨r, h⟩
      exact ⟨[], r, by simpa using h⟩
    · rintro ⟨l, r, h⟩
      rcases List.append_eq_nil.mp (List.append_eq_nil.mp h.symm).1 with ⟨-, h2⟩
      exact ⟨[], by simp [h2]⟩
  | cons c cs ih =>
    simp only [hasSub, Bool.or_eq_true, beginsWith_iff, ih]
    constructor
    · rintro (⟨r, h⟩ | ⟨l, r, h⟩)
      · exact ⟨[], r, by simpa using h⟩
      · exact ⟨c :: l, r, by simp [h]⟩
    · rintro ⟨l, r, h⟩
      cases l with
      | nil => exact Or.inl ⟨r, by simpa using h⟩
      | cons x xs =>
        right
        simp only [List.cons_append, List.cons.injEq] at h
        exact ⟨xs, r, h.2⟩

/-- If the text is literally assembled as `pre ++ (pat ++ post)`, then `pat`
occurs in it as a substring. -/
theorem pyIn_of_eq_append (s pre pat post : String)
    (h : s = pre ++ (pat ++ post)) : pyIn pat s = true := by
  have hdata : s.toList = pre.toList ++ pat.toList ++ post.toList := by
    subst h
    simp [String.toList, String.data_append]
  rw [pyIn, hdata]
  exact (hasSub_iff _ _).mpr ⟨pre.toList, post.toList, rfl⟩

/-! ## Status normalization

The PowerCenter fetch queries compute a textual status from the integer
`RUN_STATUS_CODE` via a SQL `CASE` table.  The same table appears in
`src/infa/pc_mdm_monitor.py` (workflow and session queries,
`get_recent_workflows_and_sessions`) and in `src/usage/pc_jobs.py`
(`load_pc_data`); each file gets its own embedding. -/

/-- The `CASE run.RUN_STATUS_CODE ... END AS Status` table of
`get_recent_workflows_and_sessions` in `src/infa/pc_mdm_monitor.py`
(the session query carries the identical table). -/
def pcStatusOfCode (c : Int) : String :=
  if c = 1 then "Succeeded"
  else if c = 2 then "Disabled"
  else if c = 3 then "Failed"
  else if c = 4 then "Stopped"
  else if c = 5 then "Aborted"
  else if c = 6 then "Running"
  else if c = 15 then "Terminated"
  else "Unknown"

/-- The `CASE run.RUN_STATUS_CODE ... END AS Status` table of `load_pc_data`
in `src/usage/pc_jobs.py` (the session query there carries the identical
table). -/
def usageStatusOfCode (c : Int) : String :=
  if c = 1 then "Succeeded"
  else if c = 2 then "Disabled"
  else if c = 3 then "Failed"
  else if c = 4 then "Stopped"
  else if c = 5 then "Aborted"
  else if c = 6 then "Running"
  else if c = 15 then "Terminated"
  else "Unknown"

/-- The spec's closed `Outcome` enumeration. -/
inductive Outcome where
  | succeeded
  | disabled
  | failed
  | stopped
  | aborted
  | running
  | terminated
  | unknown
deriving DecidableEq, Repr

/-- The rendering of an `Outcome` as the status text the queries produce. -/
def outcomeName : Outcome → String
  | .succeeded => "Succeeded"
  | .disabled => "Disabled"
  | .failed => "Failed"
  | .stopped => "Stopped"
  | .aborted => "Aborted"
  | .running => "Running"
  | .terminated => "Terminated"
  | .unknown => "Unknown"

/-- The claim's normalization table, written from the spec's words:
1→SUCCEEDED, 2→DISABLED, 3→FAILED, 4→STOPPED, 5→ABORTED, 6→RUNNING,
15→TERMINATED, any other integer→UNKNOWN.  Compared against the two
source-embedded tables above. -/
def specOutcomeOfCode (c : Int) : Outcome :=
  if c = 1 then .succeeded
  else if c = 2 then .disabled
  else if c = 3 then .failed
  else if c = 4 then .stopped
  else if c = 5 then .aborted
  else if c = 6 then .running
  else if c = 15 then .terminated
  else .unknown

/-! ## Calendar arithmetic

Concrete `datetime` literals are built by `mk_ts` from a proleptic Gregorian
civil date (standard days-from-civil conversion); `civil_from_days` is its
inverse, used to render the date header. -/

/-- Days since 1970-01-01 of the civil date `y-m-d`. -/
def days_from_civil (y m d : Int) : Int :=
  let yAdj := if m ≤ 2 then y - 1 else y
  let mShift := if m ≤ 2 then m + 9 else m - 3
  let doy := (153 * mShift + 2) / 5 + d - 1
  365 * yAdj + yAdj / 4 - yAdj / 100 + yAdj / 400 + doy - 719468

/-- The civil date `(y, m, d)` containing day `z` (days since 1970-01-01). -/
def civil_from_days (z : Int) : Int × Int × Int :=
  let zs := z + 719468
  let era := zs / 146097
  let doe := zs - era * 146097
  let yoe := (doe - doe / 1460 + doe / 36524 - doe / 146096) / 365
  let y := yoe + era * 400
  let doy := doe - (365 * yoe + yoe / 4 - yoe / 100)
  let mp := (5 * doy + 2) / 153
  let d := doy - (153 * mp + 2) / 5 + 1
  let m := if mp < 10 then mp + 3 else mp - 9
  (if m ≤ 2 then y + 1 else y, m, d)

/-- A naive local `datetime` as seconds since the epoch. -/
def mk_ts (y m d h mi s : Int) : Int :=
  days_from_civil y m d * 86400 + h * 3600 + mi * 60 + s

/-- Ambient process state read by the formatters: the wall clock
(`datetime.datetime.now()`) and the platform test
(`platform.system() == "Windows"`). -/
structure Env where
  now : Int
  isWindows : Bool

/-- English month name, for the `%B` directive of `strftime`. -/
def monthName (m : Int) : String :=
  if m = 1 then "January"
  else if m = 2 then "February"
  else if m = 3 then "March"
  else if m = 4 then "April"
  else if m = 5 then "May"
  else if m = 6 then "June"
  else if m = 7 then "July"
  else if m = 8 then "August"
  else if m = 9 then "September"
  else if m = 10 then "October"
  else if m = 11 then "November"
  else if m = 12 then "December"
  else ""

/-- Interpreter for the two date format strings the script uses:
`%B` month name, `%#d`/`%-d` day without a leading zero, `%Y` year. -/
def fmt_strftime : List Char → Int → Int → Int → String
  | [], _, _, _ => ""
  | '%' :: 'B' :: rest, y, m, d => monthName m ++ fmt_strftime rest y m d
  | '%' :: '#' :: 'd' :: rest, y, m, d => toString d ++ fmt_strftime rest y m d
  | '%' :: '-' :: 'd' :: rest, y, m, d => toString d ++ fmt_strftime rest y m d
  | '%' :: 'Y' :: rest, y, m, d => toString y ++ fmt_strftime rest y m d
  | c :: rest, y, m, d => String.mk [c] ++ fmt_strftime rest y m d

/-- Embeds `get_date_str` of `src/infa/pc_mdm_monitor.py`: the current date rendered as
`"%B %#d, %Y"` on Windows and `"%B %-d, %Y"` elsewhere. -/
def get_date_str (env : Env) : String :=
  let fmt := if env.isWindows then "%B %#d, %Y" else "%B %-d, %Y"
  let c := civil_from_days (env.now / 86400)
  fmt_strftime fmt.toList c.1 c.2.1 c.2.2

/-! ## Reporting window -/

/-- The window computed inside `get_recent_workflows_and_sessions`:
`today_midnight = now.replace(hour=0, minute=0, second=0, microsecond=0)`,
`yesterday_10pm = today_midnight - timedelta(hours=2)`; returned as
`(yesterday_10pm, today_midnight)`. -/
def pc_window (now : Int) : Int × Int :=
  let today_midnight := now - now % 86400
  let yesterday_10pm := today_midnight - 2 * 3600
  (yesterday_10pm, today_midnight)

/-- The identical window computation inside `get_recent_jobs`. -/
def mdm_window (now : Int) : Int × Int :=
  let today_midnight := now - now % 86400
  let yesterday_10pm := today_midnight - 2 * 3600
  (yesterday_10pm, today_midnight)

/-- The time clause of the workflow query (and, identically, of the session
query): `START_TIME BETWEEN ? AND ?` — SQL `BETWEEN` is inclusive on both
ends, and a NULL start time satisfies neither comparison. -/
def wfTimeKeep (lo hi : Int) (t : Option Int) : Bool :=
  match t with
  | none => false
  | some t => decide (lo ≤ t) && decide (t ≤ hi)

/-- The time clause of the batch-job query:
`jc.START_RUN_DATE >= ? AND jc.START_RUN_DATE < ?` — a half-open interval;
a NULL start date satisfies neither comparison. -/
def jobTimeKeep (lo hi : Int) (t : Option Int) : Bool :=
  match t with
  | none => false
  | some t => decide (lo ≤ t) && decide (t < hi)

/-! ## Fetched records -/

/-- A row of the workflow query of `get_recent_workflows_and_sessions`
(`src/infa/pc_mdm_monitor.py`).  The `Status` column is computed from
`runStatusCode` by `pcStatusOfCode`. -/
structure WorkflowRun where
  subjectArea : String
  workflowName : String
  runId : Int := 0
  startTime : Option Int := none
  endTime : Option Int := none
  runStatusCode : Int
deriving DecidableEq, Repr

/-- A row of the session query of `get_recent_workflows_and_sessions`. -/
structure SessionRun where
  subjectArea : String
  workflowName : String := ""
  runId : Int := 0
  sessionName : String
  runStatusCode : Int
  actualStart : Option Int := none
deriving DecidableEq, Repr

/-- A row of the batch-job query of `get_recent_jobs`
(`row[1]` is `display`, `row[4]` is the free-text `status`). -/
structure MdmJob where
  groupName : String := ""
  display : String
  startRun : Option Int := none
  endRun : Option Int := none
  status : String
  message : String := ""
  rejects : Int := 0
deriving DecidableEq, Repr

/-- The fixed subject-area filter (equality with "GLENCORE_HR_PROD") together
with the `BETWEEN` time clause: the workflow fetch of
`get_recent_workflows_and_sessions`, as a filter over candidate table rows. -/
def get_recent_workflows (now : Int) (rows : List WorkflowRun) : List WorkflowRun :=
  let w := pc_window now
  rows.filter (fun r => r.subjectArea == "GLENCORE_HR_PROD" && wfTimeKeep w.1 w.2 r.startTime)

/-- The session fetch of `get_recent_workflows_and_sessions`
(subject-area equality with the placeholder "<modify this>" and the
`ACTUAL_START BETWEEN` time clause). -/
def get_recent_sessions (now : Int) (rows : List SessionRun) : List SessionRun :=
  let w := pc_window now
  rows.filter (fun r => r.subjectArea == "<modify this>" && wfTimeKeep w.1 w.2 r.actualStart)

/-- The `JOB_GROUP_NAME IN (...)` list of `get_recent_jobs`. -/
def MDM_JOB_GROUPS : List String :=
  ["StgBatchGroupSAP", "BOBatchGroupAD", "StgBatchGroupAD",
   "BOBatchGroupSap", "TokenMatchMergeGrp",
   "BOBatchGroup_SRC_ID_SAPNO_FLAG_LDG_STG_BO",
   "StgBatchGroupWorkday", "BOBatchGroupWorkday"]

/-- The batch-job fetch of `get_recent_jobs`, as a filter over candidate
rows: group-name membership plus the half-open time clause. -/
def get_recent_jobs (now : Int) (rows : List MdmJob) : List MdmJob :=
  let w := mdm_window now
  rows.filter (fun r => MDM_JOB_GROUPS.contains r.groupName && jobTimeKeep w.1 w.2 r.startRun)

/-! ## MDM aggregation (`format_mdm_chat` / `format_mdm_summary`)

Both formatters contain the identical comprehensions for the icon, the
name-to-icon dict, the ordered listing and the counts; they are embedded
once and used by both. -/

/-- Embeds `CUSTOM_ORDER` of `src/infa/pc_mdm_monitor.py`. -/
def custom_order : List String :=
  ["Party", "Party Relationship", "Party Source ID", "Party Status", "Party Postal Address",
   "Postal Address", "Party Electronic Address", "Party Phone Communication", "STG_PARTY",
   "STG_PARTY_REL", "Staging Party Source ID", "STG_PARTY_STATUS", "STG_PARTY_POSTAL_ADD",
   "STG_POSTAL_ADD", "STG_PARTY_ETRC_ADD", "STG_PARTY_PH_COMM", "STG_PARTY_WD",
   "STG_PARTY_REL_WD", "S_PARTY_SOURCE_ID_WD", "STG_PARTY_STATUS_WD", "STG_PARTY_PSTL_ADD_WD",
   "STG_PSTL_ADD_WD", "STG_PARTY_ERTC_ADD_WD", "STG_PARTY_PH_COMM_WD", "STG_PARTY_AD",
   "STG_PARTY_REL_AD", "S_PARTY_SOURCE_ID_AD", "STG_PARTY_STATUS_AD", "STG_PARTY_PSTL_ADD_AD",
   "STG_PSTL_ADD_AD", "STG_PARTY_ETRC_ADD_AD", "STG_PARTY_PH_COMM_AD"]

/-- Embeds the lambda `status_icon`: the success glyph if "completed" occurs in
the lowercased text, the failure glyph otherwise. -/
def status_icon (s : String) : String :=
  if pyIn "completed" (pyLower s) then "✅" else "❌"

/-- Embeds `status_dict`, the comprehension mapping `row[1]` to
`status_icon(row[4])` over all rows — a Python
dict comprehension: rows are inserted in fetch order and a later row with the
same display name overwrites the earlier entry.  Modelled by its lookup
function. -/
def status_dict (jobs : List MdmJob) : String → Option String :=
  jobs.foldl
    (fun d row => fun k => if k == row.display then some (status_icon row.status) else d k)
    (fun _ => none)

/-- Embeds `ordered_results`: one line per `CUSTOM_ORDER` entry, rendered as
the name, a separator, and the dict entry with the failure glyph as default:
the itemized listing of the MDM reports. -/
def ordered_results (jobs : List MdmJob) : List String :=
  custom_order.map (fun job => job ++ " | " ++ (status_dict jobs job).getD "❌")

/-- Embeds `total = len(jobs)`. -/
def mdm_total (jobs : List MdmJob) : Nat := jobs.length

/-- Embeds the failed count: the number of rows whose lowercased status text
does not contain "completed". -/
def mdm_failed (jobs : List MdmJob) : Nat :=
  jobs.countP (fun row => !(pyIn "completed" (pyLower row.status)))

/-- A row of the per-environment deployment table built by
`check_mdm_apps` (`{"Deployment": ..., "Status": ..., "Enabled": ...}`). -/
structure Deployment where
  deployment : String
  status : String
  enabled : String
deriving DecidableEq, Repr

/-- Embeds the literal row with deployment "N/A", failure-glyph status and
enabled text "Not Reachable" —
the sentinel row substituted for an unreachable environment. -/
def sentinelDeployment : Deployment :=
  { deployment := "N/A", status := "❌", enabled := "Not Reachable" }

/-- Per-environment summary line of the MDM formatters:
`ok` counts deployments with both flags `"✅"`, `fail` is the rest. -/
def env_summary_line (env : String) (deployments : List Deployment) : String :=
  let ok := deployments.countP (fun d => d.status == "✅" && d.enabled == "✅")
  let fail := deployments.length - ok
  env ++ " " ++ toString ok ++ " ✅ | " ++ toString fail ++ " ❌"

/-- Per-environment detailed table of `format_mdm_summary` (with the dashed
separator line). -/
def env_table_summary (env : String) (deployments : List Deployment) : String :=
  "**" ++ env ++ " Applications**\n" ++ "```\n" ++ "Deployment | Status | Enabled\n" ++
    "-------------------------------\n" ++
    String.intercalate "\n"
      (deployments.map (fun d => d.deployment ++ " | " ++ d.status ++ " | " ++ d.enabled)) ++
    "\n" ++ "```"

/-- Per-environment detailed table of `format_mdm_chat` (no separator line). -/
def env_table_chat (env : String) (deployments : List Deployment) : String :=
  "**" ++ env ++ " Applications**\n" ++ "```\nDeployment | Status | Enabled\n" ++
    String.intercalate "\n"
      (deployments.map (fun d => d.deployment ++ " | " ++ d.status ++ " | " ++ d.enabled)) ++
    "\n" ++ "```"

/-- The `summary` string built by `format_mdm_chat` before the
`if detailed:` append. -/
def mdm_chat_summary (env : Env) (jbossData : List (String × List Deployment))
    (jobs : List MdmJob) : String :=
  get_date_str env ++ "\n\n" ++
  "**🔍 MDM Monitoring Summary**\n\n" ++
  "**Services Status**\n" ++
  String.intercalate "\n" (jbossData.map (fun p => env_summary_line p.1 p.2)) ++
  "\n\n**📦 Batch Jobs**\n\n" ++
  ("Failed: " ++ toString (mdm_failed jobs) ++ " / " ++ toString (mdm_total jobs)) ++ "\n\n"

/-- Embeds `format_mdm_chat` of
`src/infa/pc_mdm_monitor.py`. -/
def format_mdm_chat (env : Env) (jbossData : List (String × List Deployment))
    (jobs : List MdmJob) (detailed : Bool) : String :=
  if detailed then
    mdm_chat_summary env jbossData jobs ++
      (String.intercalate "\n" (jbossData.map (fun p => env_table_chat p.1 p.2)) ++
        "\n\n```\nJob Name | Status\n" ++
        String.intercalate "\n" (ordered_results jobs) ++ "\n```")
  else mdm_chat_summary env jbossData jobs

/-- Embeds `format_mdm_summary` of `src/infa/pc_mdm_monitor.py`
(the detailed MDM report). -/
def format_mdm_summary (env : Env) (jbossData : List (String × List Deployment))
    (jobs : List MdmJob) : String :=
  let env_summary_lines := jbossData.map (fun p => env_summary_line p.1 p.2)
  let env_tables := jbossData.map (fun p => env_table_summary p.1 p.2)
  get_date_str env ++ "\n\n" ++
  "**🔍 MDM Monitoring Summary**\n\n" ++
  "**Services Status**\n" ++ String.intercalate "\n" env_summary_lines ++ "\n\n" ++
  String.intercalate "\n\n" env_tables ++ "\n\n" ++
  "**📦 Batch Jobs**\n\n" ++
  ("Failed: " ++ toString (mdm_failed jobs) ++ " / " ++ toString (mdm_total jobs)) ++ "\n\n" ++
  "```\n" ++ "Job Name | Status\n" ++ "----------------------\n" ++
  (String.intercalate "\n" (ordered_results jobs)) ++ "\n" ++ "```\n\n"

/-! ## PowerCenter aggregation (`format_pc_chat` / `format_pc_summary`) -/

/-- Embeds `failed_wf`, the rows whose textual status differs from
"Succeeded" —
the identical comprehension appears in both PC formatters. -/
def pcFailedWf (workflows : List WorkflowRun) : List WorkflowRun :=
  workflows.filter (fun wf => pcStatusOfCode wf.runStatusCode != "Succeeded")

/-- Embeds `failed_sess`, the session rows whose textual status differs from
"Succeeded". -/
def pcFailedSess (sessions : List SessionRun) : List SessionRun :=
  sessions.filter (fun s => pcStatusOfCode s.runStatusCode != "Succeeded")

/-- Embeds the per-row glyph of the PC listings: success glyph iff the status
text equals "Succeeded". -/
def wf_status_icon (s : String) : String :=
  if s == "Succeeded" then "✅" else "❌"

/-- Service-status lines: the environment name followed by its
reachability glyph. -/
def pc_service_lines (serviceStatus : List (String × Bool)) : String :=
  String.intercalate "\n"
    (serviceStatus.map (fun p => p.1 ++ " " ++ (if p.2 then "✅" else "❌")))

/-- The `summary` string built by `format_pc_chat` before the
`if detailed:` append. -/
def pc_chat_summary (env : Env) (serviceStatus : List (String × Bool))
    (workflows : List WorkflowRun) (sessions : List SessionRun) : String :=
  get_date_str env ++ "\n\n" ++
  "**🔍 PowerCenter Monitoring Summary**\n\n" ++
  "**Service Status:**\n" ++ pc_service_lines serviceStatus ++ "\n\n" ++
  "**📦 Workflows and Sessions**\n\n" ++
  ("**Workflows Failed:** " ++ toString (pcFailedWf workflows).length ++ " / " ++
    toString workflows.length) ++ "\n\n" ++
  ("**Sessions Failed:** " ++ toString (pcFailedSess sessions).length ++ " / " ++
    toString sessions.length) ++ "\n\n"

/-- Embeds `format_pc_chat`. -/
def format_pc_chat (env : Env) (serviceStatus : List (String × Bool))
    (workflows : List WorkflowRun) (sessions : List SessionRun) (detailed : Bool) : String :=
  if detailed then
    pc_chat_summary env serviceStatus workflows sessions ++
      ("📊 **Workflow List:**\n```\nWorkflow Name | Status\n" ++
        String.intercalate "\n"
          (workflows.map (fun row =>
            row.workflowName ++ " | " ++ wf_status_icon (pcStatusOfCode row.runStatusCode))) ++
        "\n```\n\n" ++
        "📊 **Session List:**\n```\nSession Name | Status\n" ++
        String.intercalate "\n"
          (sessions.map (fun row =>
            row.sessionName ++ " | " ++ wf_status_icon (pcStatusOfCode row.runStatusCode))) ++
        "\n```")
  else pc_chat_summary env serviceStatus workflows sessions

/-- Embeds `format_pc_summary` (the detailed
PC report; note the line break inside `**Workflows\nFailed:**`). -/
def format_pc_summary (env : Env) (serviceStatus : List (String × Bool))
    (workflows : List WorkflowRun) (sessions : List SessionRun) : String :=
  let failed_wf := pcFailedWf workflows
  let failed_sess := pcFailedSess sessions
  get_date_str env ++ "\n\n" ++
  "**🔍 PowerCenter Monitoring Summary**\n\n" ++
  "**Service Status:**\n" ++ pc_service_lines serviceStatus ++ "\n\n" ++
  "**📦 Workflows and Sessions**\n\n" ++
  ("**Workflows\nFailed:** " ++ toString failed_wf.length ++ " / " ++
    toString workflows.length) ++ "\n\n" ++
  ("**Sessions\nFailed:** " ++ toString failed_sess.length ++ " / " ++
    toString sessions.length) ++ "\n\n" ++
  "📊 **Workflow List:**\n" ++ "```\n" ++ "Workflow Name | Status\n" ++
  "-----------------------\n" ++
  String.intercalate "\n"
    (workflows.map (fun row =>
      row.workflowName ++ " | " ++ wf_status_icon (pcStatusOfCode row.runStatusCode))) ++
  "\n" ++ "```\n\n" ++
  "📊 **Session List:**\n" ++ "```\n" ++ "Session Name | Status\n" ++
  "-----------------------\n" ++
  String.intercalate "\n"
    (sessions.map (fun row =>
      row.sessionName ++ " | " ++ wf_status_icon (pcStatusOfCode row.runStatusCode))) ++
  "\n" ++ "```"

/-! ## Service checks (`check_pc_service` / `check_mdm_apps`)

External effects are explicit inputs: for each environment the outcome of the
`.bat` run, respectively of the JBoss management calls, is a value of an
inductive type, and the `try/except` structure is mirrored by matching. -/

/-- Outcome of `subprocess.run(["cmd", "/c", bat_file], ..., timeout=30)`:
it either times out (`subprocess.TimeoutExpired`), raises some other
exception, or completes with combined stdout+stderr text. -/
inductive RunResult where
  | timeout
  | error
  | completed (output : String)

/-- One iteration of the loop in `check_pc_service`: alive iff the run completed
and its output contains `"Integration Service is alive"`; a timeout or any
other exception is caught and recorded as `false`. -/
def check_pc_env (r : RunResult) : Bool :=
  match r with
  | .timeout => false
  | .error => false
  | .completed output => pyIn "Integration Service is alive" output

/-- The keys of `BAT_FILES`. -/
def BAT_ENVS : List String := ["DEV", "SIT", "PRD"]

/-- Embeds `check_pc_service`: one boolean per configured environment, in
configuration order. -/
def check_pc_service (run : String → RunResult) : List (String × Bool) :=
  BAT_ENVS.map (fun env => (env, check_pc_env (run env)))

/-- Outcome of one `requests.post` call: a raised exception (connection
failure, timeout, ...) or a response with a status code and parsed body. -/
inductive HttpResult (α : Type) where
  | exc
  | resp (statusCode : Nat) (body : α)

/-- The `result` object of a JBoss `read-resource` reply:
`status` text and `enabled` flag. -/
structure DeploymentResource where
  status : String
  enabled : Bool

/-- The two JBoss management calls `check_mdm_apps` makes for one
environment: the deployment-name listing and the per-deployment
`read-resource` call. -/
structure MdmProbe where
  listDeployments : HttpResult (List String)
  readResource : String → HttpResult DeploymentResource

/-- The per-deployment loop of `check_mdm_apps`: a 200 reply appends a row,
a non-200 reply is skipped, and a raised exception aborts the whole
environment (`none`), discarding rows accumulated so far — the `try` block
wraps the entire loop. -/
def dep_rows (read : String → HttpResult DeploymentResource) :
    List String → Option (List Deployment)
  | [] => some []
  | dep :: rest =>
    match read dep with
    | .exc => none
    | .resp code r =>
      if code == 200 then
        (dep_rows read rest).map (fun tail =>
          { deployment := dep,
            status := if r.status == "OK" then "✅" else "❌",
            enabled := if r.enabled then "✅" else "❌" } :: tail)
      else dep_rows read rest

/-- One iteration of the environment loop in `check_mdm_apps`: a non-200 listing
reply, a raised exception anywhere, or an empty accumulated list all yield
the single sentinel row. -/
def check_mdm_env (p : MdmProbe) : List Deployment :=
  match p.listDeployments with
  | .exc => [sentinelDeployment]
  | .resp code deps =>
    if code != 200 then [sentinelDeployment]
    else
      match dep_rows p.readResource deps with
      | none => [sentinelDeployment]
      | some rows => if rows.isEmpty then [sentinelDeployment] else rows

/-- The keys of `ENVIRONMENTS`. -/
def MDM_ENVS : List String := ["SIT", "PRD"]

/-- Embeds `check_mdm_apps`: one deployment-row list per configured environment,
in configuration order. -/
def check_mdm_apps (probes : String → MdmProbe) : List (String × List Deployment) :=
  MDM_ENVS.map (fun env => (env, check_mdm_env (probes env)))

/-! ## Delivery (`send_to_teams` / `monitor`) -/

/-- Outcome of the `requests.post(webhook_url, json=...)` call inside
`send_to_teams`: raised exception, or a response with a status code. -/
inductive SendResult where
  | exc
  | resp (statusCode : Nat)
deriving DecidableEq, Repr

/-- Embeds `send_to_teams`: the function has no `try/except`,
so an exception raised by `requests.post` propagates to the caller
(`Except.error`); a response — 200 or not — only triggers a log line and
returns normally. -/
def send_to_teams (r : SendResult) : Except Unit Unit :=
  match r with
  | .exc => Except.error ()
  | .resp _ => Except.ok ()

/-- The delivery fan-out of `monitor()`: four `send_to_teams` calls in
sequence (PC chat, MDM chat, PC detailed, MDM detailed), all inside
the single `try/except` of `monitor`, which catches a propagated exception and
ends the cycle.  Returns the indices of the deliveries that were attempted. -/
def monitor_sends (send : Nat → SendResult) : List Nat :=
  match send_to_teams (send 0) with
  | .error _ => [0]
  | .ok _ =>
    match send_to_teams (send 1) with
    | .error _ => [0, 1]
    | .ok _ =>
      match send_to_teams (send 2) with
      | .error _ => [0, 1, 2]
      | .ok _ => [0, 1, 2, 3]

/-! ## Shared helper lemmas -/

/-- A substring of `a` is a substring of `a ++ b`. -/
theorem pyIn_append_left (pat a b : String) (h : pyIn pat a = true) :
    pyIn pat (a ++ b) = true := by
  rcases (hasSub_iff _ _).mp h with ⟨l, r, hl⟩
  refine (hasSub_iff _ _).mpr ⟨l, r ++ b.toList, ?_⟩
  have hab : (a ++ b).toList = a.toList ++ b.toList := by
    simp [String.toList, String.data_append]
  rw [hab, hl]
  simp [List.append_assoc]

/-- Characterization of the Python dict comprehension
`{row[1]: status_icon(row[4]) for row in jobs}`: lookup is governed by the
last (in fetch order) row carrying the key. -/
theorem status_dict_foldl (jobs : List MdmJob) (d : String → Option String) (k : String) :
    jobs.foldl
        (fun d row => fun k =>
          if k == row.display then some (status_icon row.status) else d k) d k =
      match jobs.reverse.find? (fun row => row.display == k) with
      | some row => some (status_icon row.status)
      | none => d k := by
  induction jobs generalizing d with
  | nil => simp
  | cons r rest ih =>
    simp only [List.foldl_cons, List.reverse_cons, ih, List.find?_append]
    cases hf : rest.reverse.find? (fun row => row.display == k) with
    | some row => simp [Option.or]
    | none =>
      by_cases hk : r.display = k
      · have h1 : (r.display == k) = true := by simp [hk]
        have h2 : (k == r.display) = true := by simp [hk]
        simp [Option.or, List.find?, h1, h2]
      · have h1 : (r.display == k) = false := by simp [hk]
        have h2 : (k == r.display) = false := by
          simp only [beq_eq_false_iff_ne, ne_eq]
          exact fun h => hk h.symm
        simp [Option.or, List.find?, h1, h2]

/-- Lookup in `status_dict`, stated through `find?` over the reversed fetch
order. -/
theorem status_dict_eq_find (jobs : List MdmJob) (k : String) :
    status_dict jobs k =
      (jobs.reverse.find? (fun row => row.display == k)).map
        (fun row => status_icon row.status) := by
  unfold status_dict
  rw [status_dict_foldl]
  cases jobs.reverse.find? (fun row => row.display == k) <;> rfl

/-- A key carried by no fetched row is absent from `status_dict`. -/
theorem status_dict_eq_none (jobs : List MdmJob) (k : String)
    (h : ∀ row ∈ jobs, row.display ≠ k) : status_dict jobs k = none := by
  rw [status_dict_eq_find]
  have hnone : jobs.reverse.find? (fun row => row.display == k) = none := by
    refine List.find?_eq_none.mpr ?_
    intro row hrow
    simp only [beq_iff_eq]
    exact h row (List.mem_reverse.mp hrow)
  rw [hnone]
  rfl

/-- The textual status test (difference from "Succeeded") agrees with the
spec-level
test `Outcome ≠ SUCCEEDED` on every status code. -/
theorem pcStatus_ne_succeeded (c : Int) :
    (pcStatusOfCode c != "Succeeded") =
      decide (specOutcomeOfCode c ≠ Outcome.succeeded) := by
  simp only [pcStatusOfCode, specOutcomeOfCode]
  split_ifs <;> decide

/-- Theorem: `check_mdm_env` never yields an empty row list. -/
theorem check_mdm_env_ne_nil (p : MdmProbe) : check_mdm_env p ≠ [] := by
  unfold check_mdm_env
  cases p.listDeployments with
  | exc => simp
  | resp code deps =>
    dsimp only
    split
    · simp
    · cases dep_rows p.readResource deps with
      | none => simp
      | some rows =>
        dsimp only
        split
        · simp
        · next h => simpa [List.isEmpty_iff] using h

/-! ## Claims -/

/-- C4: for every integer workflow/session status code, the normalization
used by the monitor's workflow/session queries and by the usage dashboard's
queries returns the status named by the spec's table — SUCCEEDED for 1,
DISABLED for 2, FAILED for 3, STOPPED for 4, ABORTED for 5, RUNNING for 6,
TERMINATED for 15, and UNKNOWN for every other integer
(`specOutcomeOfCode` is that table, verbatim). -/
theorem C4_numeric_status_normalization (c : Int) :
    pcStatusOfCode c = outcomeName (specOutcomeOfCode c) ∧
    usageStatusOfCode c = outcomeName (specOutcomeOfCode c) := by
  constructor <;>
    (simp only [pcStatusOfCode, usageStatusOfCode, specOutcomeOfCode]; split_ifs <;> rfl)

/-- C5: for every wall-clock instant, both fetchers compute the same
reporting window, namely from (that day's 00:00 minus 2 hours) to that
day's 00:00; in particular at now = 2024-03-10T06:00:00 the window is
[2024-03-09T22:00:00, 2024-03-10T00:00:00). -/
theorem C5_notification_window :
    (∀ now : Int,
      pc_window now = (86400 * (now / 86400) - 7200, 86400 * (now / 86400)) ∧
      mdm_window now = pc_window now) ∧
    pc_window (mk_ts 2024 3 10 6 0 0) =
      (mk_ts 2024 3 9 22 0 0, mk_ts 2024 3 10 0 0 0) := by
  refine ⟨fun now => ⟨?_, rfl⟩, by decide⟩
  simp only [pc_window, Prod.mk.injEq]
  omega

/-- C2 (counterexample): the claim says a record starting exactly at
window.end (midnight) is excluded by the workflow/session fetch; but that
fetch uses SQL `BETWEEN`, whose upper bound is inclusive, so a workflow row
starting exactly at 2024-03-10T00:00:00 — the upper bound of the window
computed at now = 2024-03-10T06:00:00 — is retained. -/
theorem C2_counterexample :
    (pc_window (mk_ts 2024 3 10 6 0 0)).2 = mk_ts 2024 3 10 0 0 0 ∧
    get_recent_workflows (mk_ts 2024 3 10 6 0 0)
        [{ subjectArea := "GLENCORE_HR_PROD", workflowName := "wf_midnight",
           runStatusCode := 1, startTime := some (mk_ts 2024 3 10 0 0 0) }] =
      [{ subjectArea := "GLENCORE_HR_PROD", workflowName := "wf_midnight",
         runStatusCode := 1, startTime := some (mk_ts 2024 3 10 0 0 0) }] := by
  constructor
  · decide
  · decide

/-- C2 (amended): the batch-job fetch filters on the half-open interval
[window.start, window.end) — start included, end (midnight) excluded —
while the workflow/session fetch uses SQL `BETWEEN`, the closed interval
[window.start, window.end], so a record starting exactly at midnight is
included there; records with no start time are excluded by both. -/
theorem C2_window_filter_boundaries (now t : Int) :
    jobTimeKeep (mdm_window now).1 (mdm_window now).2 (some (mdm_window now).1) = true ∧
    jobTimeKeep (mdm_window now).1 (mdm_window now).2 (some (mdm_window now).2) = false ∧
    wfTimeKeep (pc_window now).1 (pc_window now).2 (some (pc_window now).1) = true ∧
    wfTimeKeep (pc_window now).1 (pc_window now).2 (some (pc_window now).2) = true ∧
    jobTimeKeep (mdm_window now).1 (mdm_window now).2 none = false ∧
    wfTimeKeep (pc_window now).1 (pc_window now).2 none = false ∧
    jobTimeKeep (mdm_window now).1 (mdm_window now).2 (some t) =
      (decide ((mdm_window now).1 ≤ t) && decide (t < (mdm_window now).2)) ∧
    wfTimeKeep (pc_window now).1 (pc_window now).2 (some t) =
      (decide ((pc_window now).1 ≤ t) && decide (t ≤ (pc_window now).2)) := by
  refine ⟨?_, ?_, ?_, ?_, rfl, rfl, rfl, rfl⟩
  · simp only [jobTimeKeep, mdm_window, Bool.and_eq_true, decide_eq_true_eq]
    omega
  · rw [Bool.eq_false_iff]
    intro hcontra
    simp only [jobTimeKeep, mdm_window, Bool.and_eq_true, decide_eq_true_eq] at hcontra
    omega
  · simp only [wfTimeKeep, pc_window, Bool.and_eq_true, decide_eq_true_eq]
    omega
  · simp only [wfTimeKeep, pc_window, Bool.and_eq_true, decide_eq_true_eq]
    omega

/-- C8 (counterexample): the claim says a failed delivery never prevents the
remaining deliveries of the cycle; but `send_to_teams` has no exception
handling, so a `requests.post` that raises propagates to the top-level
handler of `monitor`: with every send raising, only the first delivery is
attempted and the second never occurs. -/
theorem C8_counterexample :
    send_to_teams SendResult.exc = Except.error () ∧
    monitor_sends (fun _ => SendResult.exc) = [0] ∧
    (1 : Nat) ∉ monitor_sends (fun _ => SendResult.exc) := by
  refine ⟨rfl, rfl, ?_⟩
  decide

/-- C8 (amended): a delivery failure that does not raise — any HTTP response,
200 or not; a non-200 is only logged — never prevents the remaining
deliveries of the cycle: if no send raises, all four deliveries are
attempted regardless of their status codes. -/
theorem C8_nonraising_failure_does_not_block (send : Nat → SendResult)
    (h : ∀ i, send i ≠ SendResult.exc) :
    monitor_sends send = [0, 1, 2, 3] := by
  cases e0 : send 0 with
  | exc => exact absurd e0 (h 0)
  | resp c0 =>
    cases e1 : send 1 with
    | exc => exact absurd e1 (h 1)
    | resp c1 =>
      cases e2 : send 2 with
      | exc => exact absurd e2 (h 2)
      | resp c2 => simp [monitor_sends, send_to_teams, e0, e1, e2]

/-- C8 (witness): all four deliveries run at a concrete input where every
send fails with HTTP 500 (a non-raising failure). -/
theorem C8_witness :
    monitor_sends (fun _ => SendResult.resp 500) = [0, 1, 2, 3] :=
  C8_nonraising_failure_does_not_block (fun _ => SendResult.resp 500) (fun _ => by simp)

/-- C10: when several fetched batch-job records share a display name, the
glyph listed for that name is determined solely by the last such record in
fetch order (the dict comprehension in `format_mdm_summary` and
`format_mdm_chat` lets later rows overwrite earlier ones), while the total
and failed counts count every record, including the overwritten ones
(both counts are additive over record lists). -/
theorem C10_last_record_wins (jobs jobs2 : List MdmJob) (name : String) :
    status_dict jobs name =
      (jobs.reverse.find? (fun row => row.display == name)).map
        (fun row => status_icon row.status) ∧
    ordered_results jobs =
      custom_order.map (fun nm => nm ++ " | " ++
        ((jobs.reverse.find? (fun row => row.display == nm)).map
          (fun row => status_icon row.status)).getD "❌") ∧
    mdm_total (jobs ++ jobs2) = mdm_total jobs + mdm_total jobs2 ∧
    mdm_failed (jobs ++ jobs2) = mdm_failed jobs + mdm_failed jobs2 := by
  refine ⟨status_dict_eq_find jobs name, ?_, ?_, ?_⟩
  · have hfun : (fun nm => nm ++ " | " ++ (status_dict jobs nm).getD "❌") =
        (fun nm => nm ++ " | " ++
          ((jobs.reverse.find? (fun row => row.display == nm)).map
            (fun row => status_icon row.status)).getD "❌") := by
      funext nm
      rw [status_dict_eq_find]
    rw [ordered_results, hfun]
  · simp [mdm_total]
  · simp [mdm_failed, List.countP_append]

/-- C3: a batch-job status message normalizes to success (glyph `✅`) iff its
lowercased text contains the substring `"completed"`, and to failure (`❌`)
otherwise; the failed count of the MDM reports counts exactly the rows whose
glyph is not `✅`, and every glyph stored in the name-to-glyph dict is the
icon of an actual fetched row, so the per-item glyphs follow the same rule. -/
theorem C3_completed_substring_rule (s : String) (jobs : List MdmJob) (name : String) :
    (status_icon s = "✅" ↔
      ∃ l r, (pyLower s).toList = l ++ "completed".toList ++ r) ∧
    (status_icon s = "✅" ∨ status_icon s = "❌") ∧
    mdm_failed jobs = jobs.countP (fun row => !(status_icon row.status == "✅")) ∧
    (status_dict jobs name = none ∨
      ∃ row, row ∈ jobs ∧ row.display = name ∧
        status_dict jobs name = some (status_icon row.status)) := by
  refine ⟨?_, ?_, ?_, ?_⟩
  · by_cases hc : pyIn "completed" (pyLower s) = true
    · rw [status_icon, if_pos hc]
      exact iff_of_true rfl ((hasSub_iff _ _).mp hc)
    · rw [status_icon, if_neg hc]
      exact iff_of_false (by decide)
        (fun ⟨l, r, hlr⟩ => hc ((hasSub_iff _ _).mpr ⟨l, r, hlr⟩))
  · by_cases hc : pyIn "completed" (pyLower s) = true
    · exact Or.inl (by rw [status_icon, if_pos hc])
    · exact Or.inr (by rw [status_icon, if_neg hc])
  · have hfun : (fun row : MdmJob => !(pyIn "completed" (pyLower row.status))) =
        (fun row : MdmJob => !(status_icon row.status == "✅")) := by
      funext row
      by_cases hc : pyIn "completed" (pyLower row.status) = true
      · have hicon : ("✅" == "✅") = true := by decide
        rw [status_icon, if_pos hc, hc, hicon]
      · have hfalse : pyIn "completed" (pyLower row.status) = false :=
          Bool.eq_false_iff.mpr hc
        have hicon : ("❌" == "✅") = false := by decide
        rw [status_icon, if_neg hc, hfalse, hicon]
    rw [mdm_failed, hfun]
  · cases hf : jobs.reverse.find? (fun row => row.display == name) with
    | none =>
      left
      rw [status_dict_eq_find, hf]
      rfl
    | some row =>
      right
      refine ⟨row, List.mem_reverse.mp (List.mem_of_find?_eq_some hf), ?_, ?_⟩
      · have hp := List.find?_some (p := fun row : MdmJob => row.display == name) hf
        exact beq_iff_eq.mp hp
      · rw [status_dict_eq_find, hf]
        rfl

/-- C1: the itemized listing of the detailed MDM report (`ordered_results`,
rendered verbatim inside `format_mdm_summary`) has exactly one line per name
of the canonical priority list `custom_order` (which is duplicate-free), in
the canonical order and independent of fetch order; every line belongs to a
canonical name, so a fetched record with a non-canonical display name
contributes no line, yet the reported total still counts every fetched
record; a canonical name with no fetched record is rendered with the
failure glyph `❌`. -/
theorem C1_canonical_listing (env : Env) (jboss : List (String × List Deployment))
    (jobs : List MdmJob) :
    custom_order.Nodup ∧
    (ordered_results jobs).length = custom_order.length ∧
    (∀ line ∈ ordered_results jobs, ∃ name ∈ custom_order,
        line = name ++ " | " ++ (status_dict jobs name).getD "❌") ∧
    (∀ name ∈ custom_order, (∀ row ∈ jobs, row.display ≠ name) →
        name ++ " | ❌" ∈ ordered_results jobs) ∧
    mdm_total jobs = jobs.length ∧
    pyIn (String.intercalate "\n" (ordered_results jobs))
      (format_mdm_summary env jboss jobs) = true := by
  refine ⟨by decide, by simp [ordered_results], ?_, ?_, rfl, ?_⟩
  · intro line hline
    rcases List.mem_map.mp hline with ⟨name, hmem, heq⟩
    exact ⟨name, hmem, heq.symm⟩
  · intro name hmem hnotin
    have hd : status_dict jobs name = none := status_dict_eq_none jobs name hnotin
    have hline : name ++ " | ❌" = name ++ " | " ++ (status_dict jobs name).getD "❌" := by
      have hlit : (" | " : String) ++ "❌" = " | ❌" := by decide
      rw [hd]
      calc name ++ " | ❌" = name ++ (" | " ++ "❌") := by rw [hlit]
        _ = name ++ " | " ++ "❌" := (String.append_assoc _ _ _).symm
        _ = name ++ " | " ++ (Option.getD none "❌") := rfl
    rw [hline]
    exact List.mem_map.mpr ⟨name, hmem, rfl⟩
  · refine pyIn_of_eq_append _
      (get_date_str env ++ "\n\n" ++
        "**🔍 MDM Monitoring Summary**\n\n" ++
        "**Services Status**\n" ++
        String.intercalate "\n" (jboss.map (fun p => env_summary_line p.1 p.2)) ++ "\n\n" ++
        String.intercalate "\n\n" (jboss.map (fun p => env_table_summary p.1 p.2)) ++ "\n\n" ++
        "**📦 Batch Jobs**\n\n" ++
        ("Failed: " ++ toString (mdm_failed jobs) ++ " / " ++ toString (mdm_total jobs)) ++
        "\n\n" ++ "```\n" ++ "Job Name | Status\n" ++ "----------------------\n")
      _ ("\n" ++ "```\n\n") ?_
    simp only [format_mdm_summary, String.append_assoc]

/-- C6: in both the terse (`format_pc_chat`, either mode) and the detailed
(`format_pc_summary`) PowerCenter report, the top-line failed count equals
the number of records whose Outcome is not SUCCEEDED — so RUNNING, DISABLED,
STOPPED, ABORTED, TERMINATED and UNKNOWN all count as failed — and the
reported denominator is the full record count: the rendered text contains
the counts line built from exactly those two numbers, for workflows and for
sessions. -/
theorem C6_failed_counts (env : Env) (ss : List (String × Bool))
    (wfs : List WorkflowRun) (sess : List SessionRun) (detailed : Bool) :
    (pcFailedWf wfs).length =
      wfs.countP (fun r => decide (specOutcomeOfCode r.runStatusCode ≠ Outcome.succeeded)) ∧
    (pcFailedSess sess).length =
      sess.countP (fun r => decide (specOutcomeOfCode r.runStatusCode ≠ Outcome.succeeded)) ∧
    pyIn ("**Workflows Failed:** " ++
        toString (wfs.countP
          (fun r => decide (specOutcomeOfCode r.runStatusCode ≠ Outcome.succeeded))) ++
        " / " ++ toString wfs.length)
      (format_pc_chat env ss wfs sess detailed) = true ∧
    pyIn ("**Sessions Failed:** " ++
        toString (sess.countP
          (fun r => decide (specOutcomeOfCode r.runStatusCode ≠ Outcome.succeeded))) ++
        " / " ++ toString sess.length)
      (format_pc_chat env ss wfs sess detailed) = true ∧
    pyIn ("**Workflows\nFailed:** " ++
        toString (wfs.countP
          (fun r => decide (specOutcomeOfCode r.runStatusCode ≠ Outcome.succeeded))) ++
        " / " ++ toString wfs.length)
      (format_pc_summary env ss wfs sess) = true ∧
    pyIn ("**Sessions\nFailed:** " ++
        toString (sess.countP
          (fun r => decide (specOutcomeOfCode r.runStatusCode ≠ Outcome.succeeded))) ++
        " / " ++ toString sess.length)
      (format_pc_summary env ss wfs sess) = true := by
  have hpredwf : (fun wf : WorkflowRun => pcStatusOfCode wf.runStatusCode != "Succeeded") =
      (fun wf : WorkflowRun =>
        decide (specOutcomeOfCode wf.runStatusCode ≠ Outcome.succeeded)) := by
    funext wf
    exact pcStatus_ne_succeeded _
  have hpredsess : (fun s : SessionRun => pcStatusOfCode s.runStatusCode != "Succeeded") =
      (fun s : SessionRun =>
        decide (specOutcomeOfCode s.runStatusCode ≠ Outcome.succeeded)) := by
    funext s
    exact pcStatus_ne_succeeded _
  have hwf : (pcFailedWf wfs).length =
      wfs.countP (fun r => decide (specOutcomeOfCode r.runStatusCode ≠ Outcome.succeeded)) := by
    rw [pcFailedWf, hpredwf]
    exact (List.countP_eq_length_filter _ _).symm
  have hsess : (pcFailedSess sess).length =
      sess.countP (fun r => decide (specOutcomeOfCode r.runStatusCode ≠ Outcome.succeeded)) := by
    rw [pcFailedSess, hpredsess]
    exact (List.countP_eq_length_filter _ _).symm
  have hchatwf : pyIn ("**Workflows Failed:** " ++ toString (pcFailedWf wfs).length ++
      " / " ++ toString wfs.length) (pc_chat_summary env ss wfs sess) = true := by
    refine pyIn_of_eq_append _
      (get_date_str env ++ "\n\n" ++
        "**🔍 PowerCenter Monitoring Summary**\n\n" ++
        "**Service Status:**\n" ++ pc_service_lines ss ++ "\n\n" ++
        "**📦 Workflows and Sessions**\n\n")
      _ ("\n\n" ++
        ("**Sessions Failed:** " ++ toString (pcFailedSess sess).length ++ " / " ++
          toString sess.length) ++ "\n\n") ?_
    simp only [pc_chat_summary, String.append_assoc]
  have hchatsess : pyIn ("**Sessions Failed:** " ++ toString (pcFailedSess sess).length ++
      " / " ++ toString sess.length) (pc_chat_summary env ss wfs sess) = true := by
    refine pyIn_of_eq_append _
      (get_date_str env ++ "\n\n" ++
        "**🔍 PowerCenter Monitoring Summary**\n\n" ++
        "**Service Status:**\n" ++ pc_service_lines ss ++ "\n\n" ++
        "**📦 Workflows and Sessions**\n\n" ++
        ("**Workflows Failed:** " ++ toString (pcFailedWf wfs).length ++ " / " ++
          toString wfs.length) ++ "\n\n")
      _ "\n\n" ?_
    simp only [pc_chat_summary, String.append_assoc]
  refine ⟨hwf, hsess, ?_, ?_, ?_, ?_⟩
  · rw [← hwf]
    cases detailed with
    | false => exact hchatwf
    | true => exact pyIn_append_left _ _ _ hchatwf
  · rw [← hsess]
    cases detailed with
    | false => exact hchatsess
    | true => exact pyIn_append_left _ _ _ hchatsess
  · rw [← hwf]
    refine pyIn_of_eq_append _
      (get_date_str env ++ "\n\n" ++
        "**🔍 PowerCenter Monitoring Summary**\n\n" ++
        "**Service Status:**\n" ++ pc_service_lines ss ++ "\n\n" ++
        "**📦 Workflows and Sessions**\n\n")
      _ ("\n\n" ++
        ("**Sessions\nFailed:** " ++ toString (pcFailedSess sess).length ++ " / " ++
          toString sess.length) ++ "\n\n" ++
        "📊 **Workflow List:**\n" ++ "```\n" ++ "Workflow Name | Status\n" ++
        "-----------------------\n" ++
        String.intercalate "\n"
          (wfs.map (fun row =>
            row.workflowName ++ " | " ++ wf_status_icon (pcStatusOfCode row.runStatusCode))) ++
        "\n" ++ "```\n\n" ++
        "📊 **Session List:**\n" ++ "```\n" ++ "Session Name | Status\n" ++
        "-----------------------\n" ++
        String.intercalate "\n"
          (sess.map (fun row =>
            row.sessionName ++ " | " ++ wf_status_icon (pcStatusOfCode row.runStatusCode))) ++
        "\n" ++ "```") ?_
    simp only [format_pc_summary, String.append_assoc]
  · rw [← hsess]
    refine pyIn_of_eq_append _
      (get_date_str env ++ "\n\n" ++
        "**🔍 PowerCenter Monitoring Summary**\n\n" ++
        "**Service Status:**\n" ++ pc_service_lines ss ++ "\n\n" ++
        "**📦 Workflows and Sessions**\n\n" ++
        ("**Workflows\nFailed:** " ++ toString (pcFailedWf wfs).length ++ " / " ++
          toString wfs.length) ++ "\n\n")
      _ ("\n\n" ++
        "📊 **Workflow List:**\n" ++ "```\n" ++ "Workflow Name | Status\n" ++
        "-----------------------\n" ++
        String.intercalate "\n"
          (wfs.map (fun row =>
            row.workflowName ++ " | " ++ wf_status_icon (pcStatusOfCode row.runStatusCode))) ++
        "\n" ++ "```\n\n" ++
        "📊 **Session List:**\n" ++ "```\n" ++ "Session Name | Status\n" ++
        "-----------------------\n" ++
        String.intercalate "\n"
          (sess.map (fun row =>
            row.sessionName ++ " | " ++ wf_status_icon (pcStatusOfCode row.runStatusCode))) ++
        "\n" ++ "```") ?_
    simp only [format_pc_summary, String.append_assoc]

/-- An environment whose listing call raises or returns non-200 yields the
single sentinel row. -/
theorem check_mdm_env_fail (p : MdmProbe)
    (h : p.listDeployments = HttpResult.exc ∨
      ∃ c b, p.listDeployments = HttpResult.resp c b ∧ c ≠ 200) :
    check_mdm_env p = [sentinelDeployment] := by
  unfold check_mdm_env
  rcases h with h | ⟨c, b, h, hc⟩
  · rw [h]
  · rw [h]
    have hcb : (c != 200) = true := by simp [bne_iff_ne, hc]
    simp [hcb]

/-- C7: every monitored environment whose health probe fails still gets an
entry in the service-status result — for the MDM check, a raised exception
or a non-200 listing reply yields exactly the one sentinel row (and no
environment ever maps to an empty list); for the PowerCenter check, a
timeout or exception yields the value `false`.  Both checks return one
entry per configured environment, and both model functions are total, so no
exception propagates. -/
theorem C7_probe_failure_sentinel (probes : String → MdmProbe)
    (run : String → RunResult) (env : String) :
    ((check_mdm_apps probes).map Prod.fst = MDM_ENVS) ∧
    (∀ p ∈ check_mdm_apps probes, p.2 ≠ []) ∧
    (env ∈ MDM_ENVS →
      ((probes env).listDeployments = HttpResult.exc ∨
        ∃ c b, (probes env).listDeployments = HttpResult.resp c b ∧ c ≠ 200) →
      (check_mdm_apps probes).lookup env = some [sentinelDeployment]) ∧
    ((check_pc_service run).map Prod.fst = BAT_ENVS) ∧
    (env ∈ BAT_ENVS → (run env = RunResult.timeout ∨ run env = RunResult.error) →
      (check_pc_service run).lookup env = some false) := by
  refine ⟨?_, ?_, ?_, ?_, ?_⟩
  · rfl
  · intro p hp
    rcases List.mem_map.mp hp with ⟨e, -, rfl⟩
    exact check_mdm_env_ne_nil (probes e)
  · intro hmem hfail
    have hsent : check_mdm_env (probes env) = [sentinelDeployment] :=
      check_mdm_env_fail (probes env) hfail
    have : env = "SIT" ∨ env = "PRD" := by simpa [MDM_ENVS] using hmem
    rcases this with rfl | rfl <;>
      simp [check_mdm_apps, MDM_ENVS, List.lookup, hsent]
  · rfl
  · intro hmem hfail
    have hfalse : check_pc_env (run env) = false := by
      rcases hfail with h | h <;> rw [h] <;> rfl
    have : env = "DEV" ∨ env = "SIT" ∨ env = "PRD" := by simpa [BAT_ENVS] using hmem
    rcases this with rfl | rfl | rfl <;>
      simp [check_pc_service, BAT_ENVS, List.lookup, hfalse]

/-- C7 (witness): at a probe that raises everywhere and a `.bat` run that
times out everywhere, the SIT environment maps to exactly the sentinel row,
respectively to `false`. -/
theorem C7_witness :
    (check_mdm_apps (fun _ =>
        { listDeployments := HttpResult.exc,
          readResource := fun _ => HttpResult.exc })).lookup "SIT" =
      some [sentinelDeployment] ∧
    (check_pc_service (fun _ => RunResult.timeout)).lookup "SIT" = some false := by
  have h := C7_probe_failure_sentinel
    (fun _ => { listDeployments := HttpResult.exc, readResource := fun _ => HttpResult.exc })
    (fun _ => RunResult.timeout) "SIT"
  exact ⟨h.2.2.1 (by decide) (Or.inl rfl), h.2.2.2.2 (by decide) (Or.inl rfl)⟩

/-- C9: the rendering of all four reports is a deterministic function of the
service statuses, the record lists, the clock reading and the platform flag:
two calls under equal clock and platform produce byte-identical text, in
terse and in detailed mode. -/
theorem C9_deterministic_rendering (e1 e2 : Env) (ss : List (String × Bool))
    (wfs : List WorkflowRun) (sess : List SessionRun)
    (jboss : List (String × List Deployment)) (jobs : List MdmJob) (detailed : Bool)
    (hnow : e1.now = e2.now) (hwin : e1.isWindows = e2.isWindows) :
    format_pc_chat e1 ss wfs sess detailed = format_pc_chat e2 ss wfs sess detailed ∧
    format_pc_summary e1 ss wfs sess = format_pc_summary e2 ss wfs sess ∧
    format_mdm_chat e1 jboss jobs detailed = format_mdm_chat e2 jboss jobs detailed ∧
    format_mdm_summary e1 jboss jobs = format_mdm_summary e2 jboss jobs := by
  have he : e1 = e2 := by
    cases e1
    cases e2
    simp_all
  subst he
  exact ⟨rfl, rfl, rfl, rfl⟩

/-- C9 (witness): two syntactically different but equal clock readings
(the raw epoch value and the one assembled from the civil date) render the
same bytes at concrete sample inputs. -/
theorem C9_witness :
    format_pc_chat ⟨1710050400, false⟩ [("PRD", true)] [] [] false =
      format_pc_chat ⟨mk_ts 2024 3 10 6 0 0, false⟩ [("PRD", true)] [] [] false ∧
    format_mdm_summary ⟨1710050400, false⟩ [] [] =
      format_mdm_summary ⟨mk_ts 2024 3 10 6 0 0, false⟩ [] [] := by
  have h := C9_deterministic_rendering ⟨1710050400, false⟩ ⟨mk_ts 2024 3 10 6 0 0, false⟩
    [("PRD", true)] [] [] [] [] false (by decide) rfl
  exact ⟨h.1, h.2.2.2⟩

/-- C1 (witness): with no fetched records, the canonical name `Party` is
rendered with the failure glyph, and the listing appears verbatim in the
detailed MDM report. -/
theorem C1_witness :
    ("Party" ++ " | ❌") ∈ ordered_results [] ∧
    pyIn (String.intercalate "\n" (ordered_results []))
      (format_mdm_summary ⟨0, false⟩ [] []) = true := by
  have h := C1_canonical_listing ⟨0, false⟩ [] []
  exact ⟨h.2.2.2.1 "Party" (by decide)
      (fun row hrow => absurd hrow (List.not_mem_nil row)),
    h.2.2.2.2.2⟩

end Monitoring
